import Mathlib

/-!
Shallow embedding of the `aws-whitemap-api` CDK stacks.

The repository declares an API Gateway HTTP surface that proxies `PUT`
uploads straight into an S3 bucket.  Two stack variants exist:

* `SimpleStack`  — embeds `cdk/lib/cdk-stack.ts`: one route
  `/users/{userId}/files/{fileName}`, no usage plan, no API key.
* `ExtendedStack` — embeds the second stack file (`src/unnamed/part_000`):
  two routes (`background-images` and `bgms` categories), a usage plan with
  a daily quota, a provisioned API key and a CloudFormation output.

Configuration objects (integration responses, method options, usage plans)
are embedded as Lean structures whose fields mirror the TypeScript object
literals; JavaScript object spreads (`...base`) become list appends, and
key order follows JavaScript insertion order.  API Gateway selection
patterns (regexes over the upstream status code) are given executable
semantics by a tiny matcher covering the literal-and-`\d` fragment the
source uses.
-/

namespace WhiteMap

/-- One entry of an API Gateway integration's response mapping
(`apigateway.IntegrationResponse`): a gateway status code, an optional
selection pattern (regex over the upstream status; absent on the default
entry) and the response-parameter rewrites. -/
structure IntegrationResponse where
  statusCode : String
  selectionPattern : Option String := none
  responseParameters : List (String × String)
deriving DecidableEq, Repr

/-- One advertised method response (`apigateway.MethodResponse`): a status
code and, for each response header, whether it is declared. -/
structure MethodResponse where
  statusCode : String
  responseParameters : List (String × Bool)
deriving DecidableEq, Repr

/-- Method-level request/response declaration (`apigateway.MethodOptions`).
`apiKeyRequired` defaults to `false` in the CDK when the field is absent,
as in the simple variant's source. -/
structure MethodOptions where
  apiKeyRequired : Bool := false
  requestParameters : List (String × Bool)
  methodResponses : List MethodResponse
deriving DecidableEq, Repr

/-- The `apigateway.AwsIntegration` configuration built by the stacks:
an S3 `PUT` proxy with request-parameter bindings and the three-tier
integration-response table. -/
structure AwsIntegration where
  service : String
  integrationHttpMethod : String
  path : String
  requestParameters : List (String × String)
  integrationResponses : List IntegrationResponse
deriving DecidableEq, Repr

/-- One HTTP route of the deployed surface: the method, the resource path
template (as segments added by `addResource`), the backing integration and
the method options passed to `addMethod`. -/
structure Route where
  httpMethod : String
  pathTemplate : List String
  integration : AwsIntegration
  options : MethodOptions
deriving DecidableEq, Repr

/-- Usage-plan quota settings (`quota: { limit, period }`). -/
structure QuotaSettings where
  limit : Nat
  period : String
deriving DecidableEq, Repr

/-- Usage-plan throttle settings (`throttle: { burstLimit, rateLimit }`). -/
structure ThrottleSettings where
  burstLimit : Nat
  rateLimit : Nat
deriving DecidableEq, Repr

/-- A usage plan: quota, throttle, the API keys attached via `addApiKey`
and the stage names attached via `addApiStage`. -/
structure UsagePlanModel where
  quota : QuotaSettings
  throttle : ThrottleSettings
  apiKeys : List String
  stages : List String
deriving DecidableEq, Repr

/-- The observable build result of a stack constructor: the routes it
wires, the usage plan when one is created, and the CloudFormation outputs
as (output id, referenced value) pairs. -/
structure StackModel where
  routes : List Route
  usagePlan : Option UsagePlanModel
  outputs : List (String × String)
deriving DecidableEq, Repr

/-! ### Selection-pattern semantics

API Gateway matches an integration response's `selectionPattern` regex
against the backend status code (a three-character digit string).  The
source only uses patterns built from literal characters and `\d{2}`, so we
give those exact semantics: a token list of literals and digit classes,
matched against the full status string. -/

/-- A regex token: a literal character or the `\d` digit class. -/
inductive Rtok where
  | lit : Char → Rtok
  | digit : Rtok
deriving DecidableEq, Repr

/-- Parse the fragment of regex syntax used by the source's selection
patterns: literal characters and the sequence `\d{2}` (two digit-class
tokens).  Anything else is rejected. -/
def parseSelectionRegex : List Char → Option (List Rtok)
  | [] => some []
  | '\\' :: 'd' :: '\x7b' :: '2' :: '\x7d' :: rest =>
      (parseSelectionRegex rest).map (fun t => Rtok.digit :: Rtok.digit :: t)
  | '\\' :: _ => none
  | c :: rest => (parseSelectionRegex rest).map (fun t => Rtok.lit c :: t)

/-- Whether one token matches one character. -/
def tokMatches : Rtok → Char → Bool
  | Rtok.lit a, c => a = c
  | Rtok.digit, c => c.isDigit

/-- Full match of a token list against a character list (same length,
pointwise match).  For a three-token pattern against a three-character
status code this coincides with API Gateway's regex matching. -/
def toksMatch : List Rtok → List Char → Bool
  | [], [] => true
  | t :: ts, c :: cs => tokMatches t c && toksMatch ts cs
  | _, _ => false

/-- Whether selection pattern `pat` matches status text `statusText`. -/
def selectionMatches (pat statusText : String) : Bool :=
  match parseSelectionRegex pat.data with
  | some toks => toksMatch toks statusText.data
  | none => false

/-- Whether a (non-default) integration-response entry's selection pattern
matches upstream status `s`. -/
def tierMatches (r : IntegrationResponse) (s : Nat) : Bool :=
  match r.selectionPattern with
  | some p => selectionMatches p (Nat.repr s)
  | none => false

/-- API Gateway's tier selection: the first entry whose selection pattern
matches the upstream status wins; if none matches, the default entry (the
one without a selection pattern) is used. -/
def selectIntegrationResponse (rs : List IntegrationResponse) (s : Nat) :
    Option IntegrationResponse :=
  match rs.find? (fun r => tierMatches r s) with
  | some r => some r
  | none => rs.find? (fun r => r.selectionPattern.isNone)

/-! ### Storage-key derivation

Both variants point the integration at a bucket path template
`<bucket>/data/<category>/{folder}/{object}` and bind the integration path
parameter `folder` to the incoming `userId` and `object` to the incoming
`fileName`.  `storageKey` is the object key this produces once API Gateway
substitutes the bound values. -/

/-- The storage object key `data/<category>/<userId>/<fileName>` derived
from a route's upload path template with `{folder} := userId` and
`{object} := fileName`. -/
def storageKey (category userId fileName : String) : String :=
  "data/" ++ category ++ "/" ++ userId ++ "/" ++ fileName

/-- A path-parameter value is valid when it contains no `/`: a slash in a
path segment would be a path separator and never reaches the template
substitution as part of a single segment. -/
def validName (s : String) : Prop := '/' ∉ s.data

instance (s : String) : Decidable (validName s) := by
  unfold validName; infer_instance

end WhiteMap

namespace WhiteMap.SimpleStack

/-! Embedding of `cdk/lib/cdk-stack.ts` (`AWSWhiteMapAPIStack`). -/

/-- `createServerErrorResponse`: status 500, pattern `5\d{2}`, the three
CORS headers as static values. -/
def createServerErrorResponse : IntegrationResponse :=
  { statusCode := "500"
    selectionPattern := some "5\\d{2}"
    responseParameters :=
      [ ("method.response.header.Access-Control-Allow-Headers",
          "\x27Content-Type,Authorization\x27"),
        ("method.response.header.Access-Control-Allow-Methods",
          "\x27OPTIONS,POST,PUT,GET,DELETE\x27"),
        ("method.response.header.Access-Control-Allow-Origin", "\x27*\x27") ] }

/-- `createOkResponse`: status 200, no selection pattern (the default
tier); passes the content headers through, maps `Date` to `Timestamp`,
then spreads the server-error response's parameters (the CORS block). -/
def createOkResponse : IntegrationResponse :=
  { statusCode := "200"
    responseParameters :=
      [ ("method.response.header.Timestamp",
          "integration.response.header.Date"),
        ("method.response.header.Content-Length",
          "integration.response.header.Content-Length"),
        ("method.response.header.Content-Type",
          "integration.response.header.Content-Type") ]
      ++ createServerErrorResponse.responseParameters }

/-- `createNotFoundResponse`: status 400, pattern `4\d{2}`, and exactly
the server-error response's parameters. -/
def createNotFoundResponse : IntegrationResponse :=
  { statusCode := "400"
    selectionPattern := some "4\\d{2}"
    responseParameters := createServerErrorResponse.responseParameters }

/-- The `integrationResponses` list literal of the integration builder:
ok, not-found, server-error, in that order. -/
def responseTable : List IntegrationResponse :=
  [ createOkResponse, createNotFoundResponse, createServerErrorResponse ]

/-- `createAwsIntegrationToUploadBackgroundImage`: the S3 `PUT` proxy with
path-parameter bindings `folder := userId`, `object := fileName` and the
three-tier response table. -/
def createAwsIntegrationToUploadBackgroundImage
    (toUploadBucketPath : String) : AwsIntegration :=
  { service := "s3"
    integrationHttpMethod := "PUT"
    path := toUploadBucketPath
    requestParameters :=
      [ ("integration.request.path.folder", "method.request.path.userId"),
        ("integration.request.path.object", "method.request.path.fileName") ]
    integrationResponses := responseTable }

/-- `createMethodOptions`: required path parameters and the advertised
200/400/500 method responses.  The source omits `apiKeyRequired`, so the
CDK default `false` applies. -/
def createMethodOptions : MethodOptions :=
  { requestParameters :=
      [ ("method.request.path.userId", true),
        ("method.request.path.fileName", true) ]
    methodResponses :=
      [ { statusCode := "200"
          responseParameters :=
            [ ("method.response.header.Timestamp", true),
              ("method.response.header.Content-Length", true),
              ("method.response.header.Content-Type", true),
              ("method.response.header.Access-Control-Allow-Headers", true),
              ("method.response.header.Access-Control-Allow-Methods", true),
              ("method.response.header.Access-Control-Allow-Origin", true) ] },
        { statusCode := "400"
          responseParameters :=
            [ ("method.response.header.Access-Control-Allow-Headers", true),
              ("method.response.header.Access-Control-Allow-Methods", true),
              ("method.response.header.Access-Control-Allow-Origin", true) ] },
        { statusCode := "500"
          responseParameters :=
            [ ("method.response.header.Access-Control-Allow-Headers", true),
              ("method.response.header.Access-Control-Allow-Methods", true),
              ("method.response.header.Access-Control-Allow-Origin", true) ] } ] }

/-- The stack constructor's observable build: one `PUT` route
`/users/{userId}/files/{fileName}` backed by the background-images upload
integration; no usage plan, no outputs. -/
def stack (bucketName : String) : StackModel :=
  { routes :=
      [ { httpMethod := "PUT"
          pathTemplate := ["users", "{userId}", "files", "{fileName}"]
          integration := createAwsIntegrationToUploadBackgroundImage
            (bucketName ++ "/data/background-images/{folder}/{object}")
          options := createMethodOptions } ]
    usagePlan := none
    outputs := [] }

end WhiteMap.SimpleStack

namespace WhiteMap.ExtendedStack

/-! Embedding of the second stack variant (`src/unnamed/part_000`),
`AWSWhiteMapAPIStack` with two routes, a usage plan and an API key. -/

/-- `createServerErrorResponse` of the extended variant (textually the
same configuration as the simple variant's). -/
def createServerErrorResponse : IntegrationResponse :=
  { statusCode := "500"
    selectionPattern := some "5\\d{2}"
    responseParameters :=
      [ ("method.response.header.Access-Control-Allow-Headers",
          "\x27Content-Type,Authorization\x27"),
        ("method.response.header.Access-Control-Allow-Methods",
          "\x27OPTIONS,POST,PUT,GET,DELETE\x27"),
        ("method.response.header.Access-Control-Allow-Origin", "\x27*\x27") ] }

/-- `createOkResponse` of the extended variant. -/
def createOkResponse : IntegrationResponse :=
  { statusCode := "200"
    responseParameters :=
      [ ("method.response.header.Timestamp",
          "integration.response.header.Date"),
        ("method.response.header.Content-Length",
          "integration.response.header.Content-Length"),
        ("method.response.header.Content-Type",
          "integration.response.header.Content-Type") ]
      ++ createServerErrorResponse.responseParameters }

/-- `createNotFoundResponse` of the extended variant. -/
def createNotFoundResponse : IntegrationResponse :=
  { statusCode := "400"
    selectionPattern := some "4\\d{2}"
    responseParameters := createServerErrorResponse.responseParameters }

/-- The `integrationResponses` list literal of the extended variant's
integration builder: ok, not-found, server-error, in that order. -/
def responseTable : List IntegrationResponse :=
  [ createOkResponse, createNotFoundResponse, createServerErrorResponse ]

/-- `createAwsIntegrationToUploadBucket`: like the simple variant's
integration but additionally maps the `Content-Type` request header
through to the integration request. -/
def createAwsIntegrationToUploadBucket (toUploadBucketPath : String) :
    AwsIntegration :=
  { service := "s3"
    integrationHttpMethod := "PUT"
    path := toUploadBucketPath
    requestParameters :=
      [ ("integration.request.header.Content-Type",
          "method.request.header.Content-Type"),
        ("integration.request.path.folder", "method.request.path.userId"),
        ("integration.request.path.object", "method.request.path.fileName") ]
    integrationResponses := responseTable }

/-- `createMethodOptions` of the extended variant: `apiKeyRequired: true`,
the `Content-Type` header additionally required, same advertised method
responses. -/
def createMethodOptions : MethodOptions :=
  { apiKeyRequired := true
    requestParameters :=
      [ ("method.request.header.Content-Type", true),
        ("method.request.path.userId", true),
        ("method.request.path.fileName", true) ]
    methodResponses :=
      [ { statusCode := "200"
          responseParameters :=
            [ ("method.response.header.Timestamp", true),
              ("method.response.header.Content-Length", true),
              ("method.response.header.Content-Type", true),
              ("method.response.header.Access-Control-Allow-Headers", true),
              ("method.response.header.Access-Control-Allow-Methods", true),
              ("method.response.header.Access-Control-Allow-Origin", true) ] },
        { statusCode := "400"
          responseParameters :=
            [ ("method.response.header.Access-Control-Allow-Headers", true),
              ("method.response.header.Access-Control-Allow-Methods", true),
              ("method.response.header.Access-Control-Allow-Origin", true) ] },
        { statusCode := "500"
          responseParameters :=
            [ ("method.response.header.Access-Control-Allow-Headers", true),
              ("method.response.header.Access-Control-Allow-Methods", true),
              ("method.response.header.Access-Control-Allow-Origin", true) ] } ] }

/-- `createUsagePlan`: a daily quota of 30, burst limit 2, sustained rate
1, a single API key `defaultKeys` attached to the plan and to the deployed
stage (`v1`), and a CloudFormation output `APIKey` carrying that key's id. -/
def createUsagePlan : UsagePlanModel :=
  { quota := { limit := 30, period := "DAY" }
    throttle := { burstLimit := 2, rateLimit := 1 }
    apiKeys := ["defaultKeys"]
    stages := ["v1"] }

/-- The extended stack constructor's observable build: the usage plan and
API-key output, plus two `PUT` routes — background images and bgms. -/
def stack (bucketName : String) : StackModel :=
  { routes :=
      [ { httpMethod := "PUT"
          pathTemplate :=
            ["users", "{userId}", "files", "background-images", "{fileName}"]
          integration := createAwsIntegrationToUploadBucket
            (bucketName ++ "/data/background-images/{folder}/{object}")
          options := createMethodOptions },
        { httpMethod := "PUT"
          pathTemplate := ["users", "{userId}", "files", "bgms", "{fileName}"]
          integration := createAwsIntegrationToUploadBucket
            (bucketName ++ "/data/bgms/{folder}/{object}")
          options := createMethodOptions } ]
    usagePlan := some createUsagePlan
    outputs := [("APIKey", "defaultKeys.keyId")] }

end WhiteMap.ExtendedStack

namespace WhiteMap

/-! ### Claim-level predicates -/

/-- The upstream status codes the S3 backend can actually produce:
2xx on success, 4xx on client errors, 5xx on server errors. -/
def producibleStatus (s : Nat) : Prop :=
  (200 ≤ s ∧ s ≤ 299) ∨ (400 ≤ s ∧ s ≤ 499) ∨ (500 ≤ s ∧ s ≤ 599)

instance (s : Nat) : Decidable (producibleStatus s) := by
  unfold producibleStatus; infer_instance

/-- Exclusive–exhaustive tier selection at upstream status `s`, for both
variants' response tables: the 4xx and 5xx patterns never both match, each
pattern matches exactly its own hundred-block, the default (200) entry has
no pattern, and the selected tier's status code is 400 on upstream 4xx,
500 on upstream 5xx and 200 otherwise. -/
def TierSelectionAt (s : Nat) : Prop :=
  (tierMatches SimpleStack.createNotFoundResponse s
    && tierMatches SimpleStack.createServerErrorResponse s) = false
  ∧ tierMatches SimpleStack.createNotFoundResponse s
      = decide (400 ≤ s ∧ s ≤ 499)
  ∧ tierMatches SimpleStack.createServerErrorResponse s
      = decide (500 ≤ s ∧ s ≤ 599)
  ∧ tierMatches SimpleStack.createOkResponse s = false
  ∧ (selectIntegrationResponse SimpleStack.responseTable s).map
        IntegrationResponse.statusCode
      = some (if 400 ≤ s ∧ s ≤ 499 then "400"
              else if 500 ≤ s ∧ s ≤ 599 then "500" else "200")
  ∧ (selectIntegrationResponse ExtendedStack.responseTable s).map
        IntegrationResponse.statusCode
      = some (if 400 ≤ s ∧ s ≤ 499 then "400"
              else if 500 ≤ s ∧ s ≤ 599 then "500" else "200")

instance (s : Nat) : Decidable (TierSelectionAt s) := by
  unfold TierSelectionAt; infer_instance

/-- The claimed shape of an integration-response table: exactly three
entries in order — a default 200 entry passing `Content-Type` and
`Content-Length` through and mapping `Date` to `Timestamp`, a 400 entry
with pattern `4\d{2}` and a 500 entry with pattern `5\d{2}`. -/
def ResponseTableShape (rs : List IntegrationResponse) : Prop :=
  rs.map IntegrationResponse.statusCode = ["200", "400", "500"]
  ∧ rs.map IntegrationResponse.selectionPattern
      = [none, some "4\\d{2}", some "5\\d{2}"]
  ∧ ("method.response.header.Timestamp", "integration.response.header.Date")
      ∈ (rs.headD ⟨"", none, []⟩).responseParameters
  ∧ ("method.response.header.Content-Length",
      "integration.response.header.Content-Length")
      ∈ (rs.headD ⟨"", none, []⟩).responseParameters
  ∧ ("method.response.header.Content-Type",
      "integration.response.header.Content-Type")
      ∈ (rs.headD ⟨"", none, []⟩).responseParameters

instance (rs : List IntegrationResponse) : Decidable (ResponseTableShape rs) := by
  unfold ResponseTableShape; infer_instance

/-- The full CORS triple with the exact static values the spec requires. -/
def corsPairs : List (String × String) :=
  [ ("method.response.header.Access-Control-Allow-Headers",
      "\x27Content-Type,Authorization\x27"),
    ("method.response.header.Access-Control-Allow-Methods",
      "\x27OPTIONS,POST,PUT,GET,DELETE\x27"),
    ("method.response.header.Access-Control-Allow-Origin", "\x27*\x27") ]

/-- The three CORS response-header keys. -/
def corsKeys : List String := corsPairs.map Prod.fst

/-- Whether a response mapping carries at least one CORS header. -/
def mentionsCors (r : IntegrationResponse) : Bool :=
  r.responseParameters.any (fun p => corsKeys.contains p.1)

/-- Whether a response mapping carries the full CORS triple with the
exact required values. -/
def carriesFullCors (r : IntegrationResponse) : Bool :=
  corsPairs.all (fun p => r.responseParameters.contains p)

/-- The method-response header declarations of the error tiers: exactly
the three CORS headers. -/
def corsDecl : List (String × Bool) :=
  [ ("method.response.header.Access-Control-Allow-Headers", true),
    ("method.response.header.Access-Control-Allow-Methods", true),
    ("method.response.header.Access-Control-Allow-Origin", true) ]

/-- The method-response header declarations of the 200 tier: `Timestamp`,
`Content-Length` and `Content-Type` alongside the CORS triple. -/
def okDecl : List (String × Bool) :=
  [ ("method.response.header.Timestamp", true),
    ("method.response.header.Content-Length", true),
    ("method.response.header.Content-Type", true) ] ++ corsDecl

/-! ### Helper lemmas -/

/-- Splitting at a separator is unambiguous when the left parts are
separator-free: `a ++ '/' :: b = c ++ '/' :: d` with slash-free `a`, `c`
forces `a = c` and `b = d`. -/
theorem append_slash_eq {a b c d : List Char} (ha : '/' ∉ a) (hc : '/' ∉ c)
    (h : a ++ '/' :: b = c ++ '/' :: d) : a = c ∧ b = d := by
  induction a generalizing c with
  | nil =>
    cases c with
    | nil => simpa using h
    | cons x xs =>
      exfalso
      simp only [List.nil_append, List.cons_append, List.cons.injEq] at h
      exact hc (h.1 ▸ List.mem_cons_self x xs)
  | cons x xs ih =>
    cases c with
    | nil =>
      exfalso
      simp only [List.cons_append, List.nil_append, List.cons.injEq] at h
      exact ha (h.1 ▸ List.mem_cons_self x xs)
    | cons y ys =>
      simp only [List.cons_append, List.cons.injEq] at h
      obtain ⟨hxy, h'⟩ := h
      have ha' : '/' ∉ xs := fun hm => ha (List.mem_cons_of_mem _ hm)
      have hc' : '/' ∉ ys := fun hm => hc (List.mem_cons_of_mem _ hm)
      obtain ⟨h1, h2⟩ := ih ha' hc' h'
      exact ⟨by rw [hxy, h1], h2⟩

end WhiteMap

namespace WhiteMap

/-! ### Claim theorems -/

/-- **C1.** Every integration built by either stack variant has a response
mapping of exactly three entries in this order: a 200 success entry that
maps `Content-Type` and `Content-Length` through and maps the upstream
`Date` header to a `Timestamp` header, a 400 entry with selection pattern
`4\d{2}`, and a 500 entry with selection pattern `5\d{2}`. -/
theorem response_mapping_three_tiers (b : String) :
    ((SimpleStack.stack b).routes ++ (ExtendedStack.stack b).routes).map
        (fun r => r.integration.integrationResponses)
      = [SimpleStack.responseTable, ExtendedStack.responseTable,
          ExtendedStack.responseTable]
    ∧ ResponseTableShape SimpleStack.responseTable
    ∧ ResponseTableShape ExtendedStack.responseTable :=
  ⟨rfl, by decide, by decide⟩

/-- **C2.** Over the producible upstream status space (2xx, 4xx, 5xx),
exactly one tier is selected: the `4\d{2}` and `5\d{2}` patterns are
disjoint and match exactly their hundred-blocks, and any status matched by
neither falls to the 200 default tier, for both variants' tables. -/
theorem tier_selection_exclusive_exhaustive (s : Nat)
    (h : producibleStatus s) : TierSelectionAt s := by
  have hs : s < 600 := by
    rcases h with ⟨_, h2⟩ | ⟨_, h2⟩ | ⟨_, h2⟩ <;> omega
  have H : ∀ t, t < 600 → TierSelectionAt t := by
    set_option maxRecDepth 8000 in decide
  exact H s hs

/-- Witness for **C2** at upstream status 404. -/
theorem tier_selection_witness : producibleStatus 404 ∧ TierSelectionAt 404 :=
  ⟨by decide, tier_selection_exclusive_exhaustive 404 (by decide)⟩

/-- **C3.** In both variants, the 400 tier's response parameters equal the
500 tier's, and the 200 tier's response parameters contain all of them:
the server-error configuration is the base both other tiers extend. -/
theorem error_tiers_share_cors :
    SimpleStack.createNotFoundResponse.responseParameters
      = SimpleStack.createServerErrorResponse.responseParameters
    ∧ ExtendedStack.createNotFoundResponse.responseParameters
      = ExtendedStack.createServerErrorResponse.responseParameters
    ∧ (SimpleStack.createServerErrorResponse.responseParameters.all
        (fun p => SimpleStack.createOkResponse.responseParameters.contains p))
      = true
    ∧ (ExtendedStack.createServerErrorResponse.responseParameters.all
        (fun p => ExtendedStack.createOkResponse.responseParameters.contains p))
      = true := by
  refine ⟨rfl, rfl, by decide, by decide⟩

/-- **C4.** For either route category, the storage-key derivation
`(userId, fileName) ↦ data/<category>/<userId>/<fileName>` is injective on
valid (slash-free) inputs: distinct pairs give distinct keys. -/
theorem upload_key_injective (cat u₁ f₁ u₂ f₂ : String)
    (hu₁ : validName u₁) (hf₁ : validName f₁)
    (hu₂ : validName u₂) (hf₂ : validName f₂)
    (hne : (u₁, f₁) ≠ (u₂, f₂)) :
    storageKey cat u₁ f₁ ≠ storageKey cat u₂ f₂ := by
  intro heq
  apply hne
  have hd := congrArg String.data heq
  simp only [storageKey, String.data_append, List.append_assoc] at hd
  have hd1 := List.append_cancel_left hd
  have hd2 := List.append_cancel_left hd1
  have hd3 := List.append_cancel_left hd2
  simp only [List.singleton_append] at hd3
  obtain ⟨h1, h2⟩ := append_slash_eq hu₁ hu₂ hd3
  exact Prod.ext (String.ext h1) (String.ext h2)

/-- Witness for **C4**: same user, two distinct file names, distinct keys. -/
theorem upload_key_injective_witness :
    validName "alice" ∧ validName "cat.png" ∧ validName "dog.png"
    ∧ (("alice", "cat.png") ≠ (("alice", "dog.png") : String × String))
    ∧ storageKey "background-images" "alice" "cat.png"
        ≠ storageKey "background-images" "alice" "dog.png" :=
  ⟨by decide, by decide, by decide, by decide,
    upload_key_injective "background-images" "alice" "cat.png" "alice"
      "dog.png" (by decide) (by decide) (by decide) (by decide) (by decide)⟩

/-- **C5.** The HTTP surface: the simple variant wires exactly one route
`PUT /users/{userId}/files/{fileName}` onto the background-images bucket
path; the extended variant wires exactly the `background-images` and
`bgms` routes onto their bucket paths; and every route binds the
integration path parameter `folder` to `userId` and `object` to
`fileName`. -/
theorem http_surface (b : String) :
    (SimpleStack.stack b).routes.map
        (fun r => (r.httpMethod, r.pathTemplate, r.integration.path))
      = [("PUT", ["users", "{userId}", "files", "{fileName}"],
          b ++ "/data/background-images/{folder}/{object}")]
    ∧ (ExtendedStack.stack b).routes.map
        (fun r => (r.httpMethod, r.pathTemplate, r.integration.path))
      = [("PUT",
          ["users", "{userId}", "files", "background-images", "{fileName}"],
          b ++ "/data/background-images/{folder}/{object}"),
         ("PUT", ["users", "{userId}", "files", "bgms", "{fileName}"],
          b ++ "/data/bgms/{folder}/{object}")]
    ∧ ((SimpleStack.stack b).routes ++ (ExtendedStack.stack b).routes).all
        (fun r =>
          r.integration.requestParameters.contains
            ("integration.request.path.folder", "method.request.path.userId")
          && r.integration.requestParameters.contains
            ("integration.request.path.object",
              "method.request.path.fileName"))
      = true :=
  ⟨rfl, rfl, rfl⟩

/-- **C6.** Every integration-response entry of either variant that
carries any CORS header carries the full CORS triple with the exact
required values; in particular the 400 and 500 tiers of both variants
carry the full triple. -/
theorem cors_all_or_nothing :
    (SimpleStack.responseTable ++ ExtendedStack.responseTable).all
        (fun r => !mentionsCors r || carriesFullCors r) = true
    ∧ carriesFullCors SimpleStack.createNotFoundResponse = true
    ∧ carriesFullCors SimpleStack.createServerErrorResponse = true
    ∧ carriesFullCors ExtendedStack.createNotFoundResponse = true
    ∧ carriesFullCors ExtendedStack.createServerErrorResponse = true := by
  refine ⟨by decide, by decide, by decide, by decide, by decide⟩

/-- **C7.** Both variants require the `userId` and `fileName` path
parameters; the `Content-Type` request header is required only in the
extended variant; the API key is required only in the extended variant —
the one with the usage plan — and the simple variant requires none. -/
theorem required_request_declaration (b : String) :
    SimpleStack.createMethodOptions.apiKeyRequired = false
    ∧ ExtendedStack.createMethodOptions.apiKeyRequired = true
    ∧ ("method.request.path.userId", true)
        ∈ SimpleStack.createMethodOptions.requestParameters
    ∧ ("method.request.path.fileName", true)
        ∈ SimpleStack.createMethodOptions.requestParameters
    ∧ ("method.request.path.userId", true)
        ∈ ExtendedStack.createMethodOptions.requestParameters
    ∧ ("method.request.path.fileName", true)
        ∈ ExtendedStack.createMethodOptions.requestParameters
    ∧ ("method.request.header.Content-Type", true)
        ∈ ExtendedStack.createMethodOptions.requestParameters
    ∧ "method.request.header.Content-Type"
        ∉ SimpleStack.createMethodOptions.requestParameters.map Prod.fst
    ∧ (ExtendedStack.stack b).usagePlan.isSome = true
    ∧ (SimpleStack.stack b).usagePlan = none := by
  refine ⟨rfl, rfl, by decide, by decide, by decide, by decide, by decide,
    by decide, rfl, rfl⟩

/-- **C8.** In both variants the advertised method-response status codes
are exactly 200, 400, 500 — the same codes as the three integration
tiers — and the 200 method response declares `Timestamp`,
`Content-Length` and `Content-Type` alongside the CORS triple while the
400 and 500 method responses declare only the CORS triple. -/
theorem advertised_responses_mirror_tiers :
    SimpleStack.createMethodOptions.methodResponses.map
        MethodResponse.statusCode = ["200", "400", "500"]
    ∧ ExtendedStack.createMethodOptions.methodResponses.map
        MethodResponse.statusCode = ["200", "400", "500"]
    ∧ SimpleStack.responseTable.map IntegrationResponse.statusCode
      = ["200", "400", "500"]
    ∧ ExtendedStack.responseTable.map IntegrationResponse.statusCode
      = ["200", "400", "500"]
    ∧ SimpleStack.createMethodOptions.methodResponses.map
        MethodResponse.responseParameters = [okDecl, corsDecl, corsDecl]
    ∧ ExtendedStack.createMethodOptions.methodResponses.map
        MethodResponse.responseParameters = [okDecl, corsDecl, corsDecl] := by
  refine ⟨rfl, rfl, rfl, rfl, by decide, by decide⟩

/-- **C9.** Only the extended variant builds a rate-limit policy: one
usage plan with daily quota 30, burst limit 2 and sustained rate 1, with
exactly one API key attached to the plan and to the deployed stage, and
the key's identifier exposed as the `APIKey` deployment output; the simple
variant creates no plan, no key and no output. -/
theorem rate_limit_policy (b : String) :
    (ExtendedStack.stack b).usagePlan
      = some { quota := { limit := 30, period := "DAY" }
               throttle := { burstLimit := 2, rateLimit := 1 }
               apiKeys := ["defaultKeys"]
               stages := ["v1"] }
    ∧ ((ExtendedStack.stack b).usagePlan.map
        (fun u => u.apiKeys.length)) = some 1
    ∧ (ExtendedStack.stack b).outputs = [("APIKey", "defaultKeys.keyId")]
    ∧ (SimpleStack.stack b).usagePlan = none
    ∧ (SimpleStack.stack b).outputs = [] :=
  ⟨rfl, rfl, rfl, rfl, rfl⟩

/-- **C10.** The two variants build identical integration-response tables:
tier by tier, the simple variant's helper output equals the extended
variant's in status code, selection pattern and response parameters. -/
theorem variants_same_response_tables :
    SimpleStack.createOkResponse = ExtendedStack.createOkResponse
    ∧ SimpleStack.createNotFoundResponse = ExtendedStack.createNotFoundResponse
    ∧ SimpleStack.createServerErrorResponse
      = ExtendedStack.createServerErrorResponse
    ∧ SimpleStack.responseTable = ExtendedStack.responseTable :=
  ⟨rfl, rfl, rfl, rfl⟩

end WhiteMap
